import Mathlib

/-!
Verification of the IPFIX exporter subsystem and benchmark driver of the
`simple_bench` repository.  The repository's visible Python files are the
control-plane client (`trex/emu/emu_plugins/emu_plugin_ipfix.py`), the
benchmark driver (`simple_bench.py`) and a stream profile
(`interactive/profiles/stl/simple.py`).  The exporter core (record pacer,
MTU batching, export transports, session tracker, field validation) runs in
the unseen server; those parts are modelled from the specification, as
marked on each definition.  Client-side control flow is embedded directly
from the Python source.

The file holds the definitions first and the theorems after them.
-/

namespace IpfixSpec

/-! ## Record Pacer (spec §4.2) -/

/-- Modelled from the spec: the credit-based Record Pacer run over a list of
scheduling passes.  On each pass the accumulator gains `rate * dt` credit;
the pass emits `floor(credit)` records and keeps the fractional remainder
(`Int.fract c = c - ⌊c⌋`, i.e. the accumulator is decremented by the
integer part consumed).  Returns (final accumulator, total emitted). -/
def pacerRun (rate : ℚ) : ℚ → List ℚ → ℚ × ℕ
  | acc, [] => (acc, 0)
  | acc, d :: rest =>
    ((pacerRun rate (Int.fract (acc + rate * d)) rest).1,
      (⌊acc + rate * d⌋).toNat + (pacerRun rate (Int.fract (acc + rate * d)) rest).2)

/-! ## MTU record batching (spec §4.1, §4.3) -/

/-- Modelled from the spec: the wire size of one data record is the sum of
the template's field byte-lengths (fields are serialized in declaration
order with no per-record framing). -/
def record_size (lengths : List ℕ) : ℕ := lengths.sum

/-- Modelled from the spec: `compute_max_records_per_packet(mtu)` derives the
maximum whole number of data records that fit within `mtu` minus the
header/template overhead; used whenever `data_records_num == 0`. -/
def compute_max_records_per_packet (mtu packet_overhead : ℕ) (lengths : List ℕ) : ℕ :=
  (mtu - packet_overhead) / record_size lengths

/-! ## Export Session Tracker (spec §4.4, exporter info docstring) -/

/-- One Export Session Record, with the fields reported by
`get_exporter_info` (src lines 434-459). -/
structure ExportSessionRecord where
  name : String
  time : String
  status : String
  transport_status : String
  http_status_code : String
  http_response_msg : String
  bytes_uploaded : ℕ
  temp_records_uploaded : ℕ
  data_records_uploaded : ℕ

/-- The tracker keeps at most 30 Export Session Records per domain. -/
def TRACKER_MAX : ℕ := 30

/-- Modelled from the spec: every send appends one Export Session Record;
once the bound is exceeded the oldest entries (front of the list, insertion
order) are evicted, ring-buffer style. -/
def trackerAppend (tracker : List ExportSessionRecord) (r : ExportSessionRecord) :
    List ExportSessionRecord :=
  let t := tracker ++ [r]
  if TRACKER_MAX < t.length then t.drop (t.length - TRACKER_MAX) else t

/-- A sample session record, used to instantiate the tracker theorems. -/
def sampleRecord : ExportSessionRecord :=
  ⟨"file1.ipfix", "2024-01-01 00:00:00", "success", "sent", "200", "OK", 1024, 1, 10⟩

/-! ## Generator rate setting (spec §4.1) -/

/-- Per-generator state, following the data model of spec §3. -/
structure Generator where
  name : String
  template_id : ℕ
  is_options_template : Bool
  scope_count : ℕ
  template_rate_pps : ℚ
  data_rate_pps : ℚ
  data_records_num : ℕ
  enabled : Bool

/-- Modelled from the spec: `set_rates(template_rate_pps, data_rate_pps)`
with 0 as the "leave current rate unchanged" sentinel for each rate
independently. -/
def set_rates (g : Generator) (template_rate_pps data_rate_pps : ℚ) : Generator :=
  { g with
    template_rate_pps :=
      if template_rate_pps = 0 then g.template_rate_pps else template_rate_pps
    data_rate_pps :=
      if data_rate_pps = 0 then g.data_rate_pps else data_rate_pps }

/-- A sample generator (the spec §8 scenario generator). -/
def sampleGenerator : Generator :=
  ⟨"gen1", 256, false, 0, 1, 3, 0, true⟩

/-! ## HTTP Exporter Transport (spec §4.4) -/

/-- Outcome of one HTTP upload attempt as observed from the collector. -/
inductive AttemptOutcome where
  | success (http_status_code : ℕ) (http_response_msg : String)
  | failure (err : String)

/-- The per-session result recorded after the HTTP send loop finishes. -/
structure HttpSession where
  status : String
  http_status_code : Option ℕ
  http_response_msg : Option String
  error_msg : Option String

/-- Modelled from the spec: the HTTP transport retry loop.  Attempt `i` is
made; on success the session records the status code and response message of
that (last) attempt; on failure, while retries remain the next attempt is
made after `repeats_wait_time` (time is not modelled), and when retries are
exhausted the session is marked failed with the last error surfaced. -/
def httpSendFrom (attempts : ℕ → AttemptOutcome) : ℕ → ℕ → HttpSession
  | i, 0 =>
    match attempts i with
    | AttemptOutcome.success code msg => ⟨"success", some code, some msg, none⟩
    | AttemptOutcome.failure err => ⟨"failed", none, none, some err⟩
  | i, r + 1 =>
    match attempts i with
    | AttemptOutcome.success code msg => ⟨"success", some code, some msg, none⟩
    | AttemptOutcome.failure _ => httpSendFrom attempts (i + 1) r

/-- Modelled from the spec: an HTTP send with `repeats_num` retries after
the initial attempt. -/
def httpSend (repeats_num : ℕ) (attempts : ℕ → AttemptOutcome) : HttpSession :=
  httpSendFrom attempts 0 repeats_num

/-- Per-domain state relevant to a send: the two pacer credit accumulators
and the session tracker. -/
structure DomainState where
  template_acc : ℚ
  data_acc : ℚ
  tracker : List ExportSessionRecord

/-- The Export Session Record produced from a finished HTTP session. -/
def sessionRecordOf (name time : String) (s : HttpSession) : ExportSessionRecord :=
  { name := name
    time := time
    status := s.status
    transport_status := s.status
    http_status_code := (s.http_status_code.map toString).getD ""
    http_response_msg := s.http_response_msg.getD ""
    bytes_uploaded := 0
    temp_records_uploaded := 0
    data_records_uploaded := 0 }

/-- Modelled from the spec: a domain dispatches an HTTP send; the outcome is
appended to the session tracker, and nothing else in the domain (in
particular neither pacer accumulator) is touched. -/
def domainHttpSend (st : DomainState) (repeats_num : ℕ)
    (attempts : ℕ → AttemptOutcome) (name time : String) : DomainState :=
  { st with
    tracker :=
      trackerAppend st.tracker
        (sessionRecordOf name time (httpSend repeats_num attempts)) }

/-- The spec §8 HTTP scenario: the first two attempts fail with a connection
error and the third succeeds with HTTP 200. -/
def sampleAttempts : ℕ → AttemptOutcome := fun i =>
  if i < 2 then AttemptOutcome.failure "connection refused"
  else AttemptOutcome.success 200 "OK"

/-! ## Field-kind validation at generator creation (spec §4.1, §7) -/

/-- The error taxonomy of spec §7 that generator creation can produce. -/
inductive IpfixError where
  | UnsupportedFieldKind
  | ValidationError (msg : String)
  | ConfigLoadError (msg : String)

/-- A field definition as configured (src field docstring, lines 77-94). -/
structure FieldDef where
  name : String
  type : ℕ
  length : ℕ
  enterprise_number : Option ℕ
  data : List ℕ

/-- Modelled from the spec: version compatibility of one field.  Creation
fails with `UnsupportedFieldKind` if a variable-length (`0xFFFF`) field is
requested (not implemented, and only v10 could carry it) or any
enterprise/variable field is requested under v9. -/
def checkFieldKind (netflow_version : ℕ) (f : FieldDef) : Except IpfixError Unit :=
  if f.length = 0xFFFF then Except.error IpfixError.UnsupportedFieldKind
  else if netflow_version = 9 ∧ f.enterprise_number.isSome then
    Except.error IpfixError.UnsupportedFieldKind
  else Except.ok ()

/-- Modelled from the spec: all fields of a generator are checked in order;
the first incompatible field aborts the check. -/
def checkFields (netflow_version : ℕ) : List FieldDef → Except IpfixError Unit
  | [] => Except.ok ()
  | f :: rest =>
    match checkFieldKind netflow_version f with
    | Except.error e => Except.error e
    | Except.ok _ => checkFields netflow_version rest

/-- A generator definition as configured. -/
structure GenDef where
  name : String
  template_id : ℕ
  fields : List FieldDef

/-- Modelled from the spec: creating a generator in a domain validates every
field against the domain's netflow version; on any failure the error is
returned and the domain's generator list is left as it was (all-or-nothing,
no generator created). -/
def createGenerator (netflow_version : ℕ) (gens : List GenDef) (g : GenDef) :
    Except IpfixError (List GenDef) :=
  match checkFields netflow_version g.fields with
  | Except.error e => Except.error e
  | Except.ok _ => Except.ok (gens ++ [g])

/-- A v9-incompatible enterprise field. -/
def enterpriseField : FieldDef :=
  ⟨"clientIPv4Address", 45004, 4, some 9, [0, 0, 0, 0]⟩

/-! ## Profile loading from a JSON config file
(src `ipfix_load_profile_from_cfg_file`, lines 570-591) -/

/-- Python exceptions relevant to the embedded client methods. -/
inductive PyError where
  | valueError (msg : String)
  | fileNotFoundError (msg : String)
  | trexError (msg : String)

/-- The EMU client's installed-profile state, over an abstract profile
type `α`. -/
structure EmuState (α : Type) where
  installed : Option α

/-- Embedding of `self.emu_c.remove_profile()`: uninstalls the current
profile. -/
def remove_profile {α : Type} (st : EmuState α) : EmuState α :=
  { st with installed := none }

/-- Embedding of `self.emu_c.load_profile(p)`: installs profile `p`. -/
def load_profile {α : Type} (st : EmuState α) (p : α) : EmuState α :=
  { st with installed := some p }

/-- Embedding of `ipfix_load_profile_from_cfg_file` (src lines 580-591).
`parse` is the outcome of `IpfixProfileJsonConfig(...)` / `get_profile()`:
a `ValueError` is caught, its message printed (returned here as the surfaced
message) and the command returns; any other exception propagates to the
caller; only on success are `remove_profile` and `load_profile` reached. -/
def ipfix_load_profile_from_cfg_file {α : Type} (parse : Except PyError α)
    (st : EmuState α) : Except PyError (EmuState α × Option String) :=
  match parse with
  | Except.error (PyError.valueError e) =>
      Except.ok (st, some ("Failed to create profile from config file, err: " ++ e))
  | Except.error err => Except.error err
  | Except.ok profile => Except.ok (load_profile (remove_profile st) profile, none)

/-! ## Client-API validation before RPC (src lines 173-176, 200-205,
226-230, 249-252, 461-464) -/

/-- A Python runtime value, as far as `EMUValidator` inspects it. -/
inductive PyVal where
  | str (s : String)
  | float (q : ℚ)
  | bool (b : Bool)
  | clientKey (k : ℕ)
  | pyNone

/-- The declared argument types appearing in the plugin's `ver_args`. -/
inductive PyType where
  | str
  | float
  | bool
  | clientKey

/-- Does a runtime value have the declared type? -/
def typeMatches : PyVal → PyType → Bool
  | PyVal.str _, PyType.str => true
  | PyVal.float _, PyType.float => true
  | PyVal.bool _, PyType.bool => true
  | PyVal.clientKey _, PyType.clientKey => true
  | _, _ => false

/-- Modelled from the spec: `EMUValidator.verify` checks each argument's
runtime type against its declared type and raises on the first mismatch
(naming the offending argument), before any command is issued. -/
def EMUValidator_verify : List (String × PyVal × PyType) → Except PyError Unit
  | [] => Except.ok ()
  | (argname, v, t) :: rest =>
    if typeMatches v t then EMUValidator_verify rest
    else Except.error (PyError.trexError argname)

/-- One RPC command as sent through `_send_plugin_cmd_to_client`. -/
structure RpcCmd where
  cmd : String
  args : List PyVal

/-- The `ver_args` list of `set_gen_rate` (src lines 200-203). -/
def set_gen_rate_args (c_key gen_name template_rate rate : PyVal) :
    List (String × PyVal × PyType) :=
  [("c_key", c_key, PyType.clientKey), ("gen_name", gen_name, PyType.str),
   ("template_rate", template_rate, PyType.float), ("rate", rate, PyType.float)]

/-- Embedding of `set_gen_rate` (src lines 179-205): verify, then send
`ipfix_c_set_gen_state`.  The pair is (returned value or raised exception,
list of commands actually sent). -/
def set_gen_rate (resp : PyVal) (c_key gen_name template_rate rate : PyVal) :
    Except PyError PyVal × List RpcCmd :=
  match EMUValidator_verify (set_gen_rate_args c_key gen_name template_rate rate) with
  | Except.error e => (Except.error e, [])
  | Except.ok _ =>
      (Except.ok resp, [⟨"ipfix_c_set_gen_state", [c_key, gen_name, template_rate, rate]⟩])

/-- The `ver_args` list of `enable_generator` (src lines 226-228). -/
def enable_generator_args (c_key gen_name enable : PyVal) :
    List (String × PyVal × PyType) :=
  [("c_key", c_key, PyType.clientKey), ("gen_name", gen_name, PyType.str),
   ("enable", enable, PyType.bool)]

/-- Embedding of `enable_generator` (src lines 208-230). -/
def enable_generator (resp : PyVal) (c_key gen_name enable : PyVal) :
    Except PyError PyVal × List RpcCmd :=
  match EMUValidator_verify (enable_generator_args c_key gen_name enable) with
  | Except.error e => (Except.error e, [])
  | Except.ok _ =>
      (Except.ok resp, [⟨"ipfix_c_set_gen_state", [c_key, gen_name, enable]⟩])

/-- The `ver_args` list of `enable_ipfix` (src lines 249-250). -/
def enable_ipfix_args (c_key enable : PyVal) : List (String × PyVal × PyType) :=
  [("c_key", c_key, PyType.clientKey), ("enable", enable, PyType.bool)]

/-- Embedding of `enable_ipfix` (src lines 233-252). -/
def enable_ipfix (resp : PyVal) (c_key enable : PyVal) :
    Except PyError PyVal × List RpcCmd :=
  match EMUValidator_verify (enable_ipfix_args c_key enable) with
  | Except.error e => (Except.error e, [])
  | Except.ok _ => (Except.ok resp, [⟨"ipfix_c_set_state", [c_key, enable]⟩])

/-- The `ver_args` list of `get_gen_info` (src line 173). -/
def get_gen_info_args (c_key : PyVal) : List (String × PyVal × PyType) :=
  [("c_key", c_key, PyType.clientKey)]

/-- Embedding of `get_gen_info` (src lines 132-176). -/
def get_gen_info (resp : PyVal) (c_key : PyVal) :
    Except PyError PyVal × List RpcCmd :=
  match EMUValidator_verify (get_gen_info_args c_key) with
  | Except.error e => (Except.error e, [])
  | Except.ok _ => (Except.ok resp, [⟨"ipfix_c_get_gens_info", [c_key]⟩])

/-- The `ver_args` list of `get_exporter_info` (src line 461). -/
def get_exporter_info_args (c_key : PyVal) : List (String × PyVal × PyType) :=
  [("c_key", c_key, PyType.clientKey)]

/-- Embedding of `get_exporter_info` (src lines 416-464). -/
def get_exporter_info (resp : PyVal) (c_key : PyVal) :
    Except PyError PyVal × List RpcCmd :=
  match EMUValidator_verify (get_exporter_info_args c_key) with
  | Except.error e => (Except.error e, [])
  | Except.ok _ => (Except.ok resp, [⟨"ipfix_c_get_exp_info", [c_key]⟩])

/-! ## Console rate-command return shapes (src lines 394 and 412) -/

/-- A Python value as returned by the two rate console commands. -/
inductive PyValue where
  | bool (b : Bool)
  | tuple (vs : List PyValue)

/-- Is the value a tuple? -/
def isTuple : PyValue → Bool
  | PyValue.tuple _ => true
  | _ => false

/-- Embedding of `ipfix_set_data_rate_line` (src line 394): returns the bare
result of `set_gen_rate`. -/
def ipfix_set_data_rate_line (set_gen_rate_result : Bool) : PyValue :=
  PyValue.bool set_gen_rate_result

/-- Embedding of `ipfix_set_template_rate_line` (src line 412): the trailing
comma wraps the result of `set_gen_rate` in a one-element tuple. -/
def ipfix_set_template_rate_line (set_gen_rate_result : Bool) : PyValue :=
  PyValue.tuple [PyValue.bool set_gen_rate_result]

end IpfixSpec

namespace SimpleBench

/-! ## Benchmark driver ramp rates (src `simple_bench.py`, lines 108-110) -/

/-- Python `int()` on a rational: truncation toward zero. -/
def pyInt (q : ℚ) : ℤ := if 0 ≤ q then ⌊q⌋ else -⌊-q⌋

/-- Embedding of src line 108:
`step = int((self.target_rate - self.base_rate) / self.steps)` (division is
exact rational division here). -/
def rampStep (base_rate target_rate steps : ℤ) : ℤ :=
  pyInt (((target_rate - base_rate : ℤ) : ℚ) / ((steps : ℤ) : ℚ))

/-- Ascending `range` elements, fuelled (the fuel bounds the element
count). -/
def rangeAsc : ℕ → ℤ → ℤ → ℤ → List ℤ
  | 0, _, _, _ => []
  | fuel + 1, start, stop, step =>
    if start < stop then start :: rangeAsc fuel (start + step) stop step else []

/-- Descending `range` elements, fuelled. -/
def rangeDesc : ℕ → ℤ → ℤ → ℤ → List ℤ
  | 0, _, _, _ => []
  | fuel + 1, start, stop, step =>
    if stop < start then start :: rangeDesc fuel (start + step) stop step else []

/-- Embedding of Python `range(start, stop, step)`: a zero step raises
`ValueError`; otherwise the arithmetic progression from `start` toward
`stop`, excluding `stop`. -/
def pyRange (start stop step : ℤ) : Except String (List ℤ) :=
  if step = 0 then Except.error "ValueError: range() arg 3 must not be zero"
  else if 0 < step then Except.ok (rangeAsc (stop - start).toNat start stop step)
  else Except.ok (rangeDesc (start - stop).toNat start stop step)

/-- Embedding of src lines 108-109: the list of ramp rates tested by
`do_test` is `range(base_rate, target_rate, step)` with the computed step
(the comprehension variable shadowing in line 109 leaves the range elements
unchanged). -/
def do_test_rates (base_rate target_rate steps : ℤ) : Except String (List ℤ) :=
  pyRange base_rate target_rate (rampStep base_rate target_rate steps)

end SimpleBench

/-! # Theorems -/

namespace IpfixSpec

/-- Running the pacer from a fractional accumulator `Int.fract x` over passes
`dts` ends with accumulator `Int.fract (x + rate * dts.sum)` and emits
exactly `⌊x + rate * dts.sum⌋ - ⌊x⌋` records. -/
lemma pacerRun_fract (rate : ℚ) (hr : 0 ≤ rate) :
    ∀ (dts : List ℚ) (x : ℚ), (∀ d ∈ dts, 0 ≤ d) →
      pacerRun rate (Int.fract x) dts =
        (Int.fract (x + rate * dts.sum), (⌊x + rate * dts.sum⌋ - ⌊x⌋).toNat) := by
  intro dts
  induction dts with
  | nil =>
    intro x _
    simp [pacerRun]
  | cons d rest ih =>
    intro x hd
    have hd0 : 0 ≤ d := hd d (by simp)
    have hrest : ∀ e ∈ rest, 0 ≤ e := fun e he => hd e (by simp [he])
    have hsum0 : 0 ≤ rest.sum := List.sum_nonneg hrest
    have hc : Int.fract x + rate * d = (x + rate * d) - ((⌊x⌋ : ℤ) : ℚ) := by
      simp only [Int.fract]
      ring
    have hfloor : ⌊Int.fract x + rate * d⌋ = ⌊x + rate * d⌋ - ⌊x⌋ := by
      rw [hc, Int.floor_sub_int]
    have hfract : Int.fract (Int.fract x + rate * d) = Int.fract (x + rate * d) := by
      rw [hc, Int.fract_sub_int]
    have hmono1 : ⌊x⌋ ≤ ⌊x + rate * d⌋ :=
      Int.floor_le_floor (by nlinarith)
    have hmono2 : ⌊x + rate * d⌋ ≤ ⌊x + rate * d + rate * rest.sum⌋ :=
      Int.floor_le_floor (by nlinarith)
    have harg : x + rate * d + rate * rest.sum = x + rate * (d + rest.sum) := by ring
    simp only [pacerRun, hfract, hfloor, ih (x + rate * d) hrest, List.sum_cons]
    rw [Prod.mk.injEq]
    refine ⟨by rw [harg], ?_⟩
    rw [← harg]
    omega

/-- Claim C1: the Record Pacer's credit-based accumulation is associative.
For every rate and every two subdivisions of an interval `T` into
scheduling passes (nonnegative elapsed times summing to `T`), the total
number of emitted records is the same, and it equals `rate * T` to within
one unit of rounding error (it is `⌊rate * T⌋`). -/
theorem pacer_subdivision_invariant (rate T : ℚ) (dts₁ dts₂ : List ℚ)
    (hr : 0 ≤ rate) (h1 : ∀ d ∈ dts₁, 0 ≤ d) (h2 : ∀ d ∈ dts₂, 0 ≤ d)
    (hs1 : dts₁.sum = T) (hs2 : dts₂.sum = T) :
    (pacerRun rate 0 dts₁).2 = (pacerRun rate 0 dts₂).2 ∧
    ((pacerRun rate 0 dts₁).2 : ℚ) ≤ rate * T ∧
    rate * T < ((pacerRun rate 0 dts₁).2 : ℚ) + 1 := by
  have hT : 0 ≤ T := hs1 ▸ List.sum_nonneg h1
  have hrT : 0 ≤ rate * T := mul_nonneg hr hT
  have e1 := pacerRun_fract rate hr dts₁ 0 h1
  have e2 := pacerRun_fract rate hr dts₂ 0 h2
  rw [hs1] at e1
  rw [hs2] at e2
  rw [Int.fract_zero] at e1 e2
  rw [e1, e2]
  have hfl : 0 ≤ ⌊rate * T⌋ := Int.floor_nonneg.mpr hrT
  have hcast : ((⌊rate * T⌋.toNat : ℚ)) = ((⌊rate * T⌋ : ℤ) : ℚ) := by
    exact_mod_cast Int.toNat_of_nonneg hfl
  simp only [Int.floor_zero, sub_zero, zero_add]
  refine ⟨trivial, ?_, ?_⟩
  · rw [hcast]
    exact Int.floor_le (rate * T)
  · rw [hcast]
    exact Int.lt_floor_add_one (rate * T)

/-- Witness for C1: rate 3 pps over 10 seconds, split as one 10-second pass
versus a 4-second and a 6-second pass, emits the same total (30 records),
which is within one unit of `3 * 10`. -/
theorem pacer_subdivision_invariant_witness :
    (pacerRun 3 0 [10]).2 = (pacerRun 3 0 [4, 6]).2 ∧
    ((pacerRun 3 0 [10]).2 : ℚ) ≤ 3 * 10 ∧
    3 * 10 < ((pacerRun 3 0 [10]).2 : ℚ) + 1 :=
  pacer_subdivision_invariant 3 10 [10] [4, 6] (by norm_num)
    (by intro d hd; simp at hd; simp [hd])
    (by intro d hd; simp at hd; rcases hd with h | h <;> simp [h])
    (by norm_num) (by norm_num)

/-- Claim C2: `compute_max_records_per_packet` returns the largest `n` with
`n * record_size + packet_overhead ≤ mtu` — so `n + 1` records would exceed
`mtu` — and is deterministic given the field lengths (it is a pure
function; maximality is stated explicitly). -/
theorem compute_max_records_per_packet_largest (mtu packet_overhead : ℕ)
    (lengths : List ℕ) (hrs : 0 < record_size lengths)
    (hov : packet_overhead ≤ mtu) :
    compute_max_records_per_packet mtu packet_overhead lengths * record_size lengths
        + packet_overhead ≤ mtu ∧
    mtu < (compute_max_records_per_packet mtu packet_overhead lengths + 1)
        * record_size lengths + packet_overhead ∧
    ∀ m : ℕ, m * record_size lengths + packet_overhead ≤ mtu →
      m ≤ compute_max_records_per_packet mtu packet_overhead lengths := by
  simp only [compute_max_records_per_packet]
  have h1 : (mtu - packet_overhead) / record_size lengths * record_size lengths
      ≤ mtu - packet_overhead := Nat.div_mul_le_self _ _
  have h2 : mtu - packet_overhead
      < (mtu - packet_overhead) / record_size lengths * record_size lengths
        + record_size lengths := Nat.lt_div_mul_add hrs
  refine ⟨by omega, ?_, ?_⟩
  · have h3 : ((mtu - packet_overhead) / record_size lengths + 1) * record_size lengths
        = (mtu - packet_overhead) / record_size lengths * record_size lengths
          + record_size lengths := add_one_mul _ _
    omega
  · intro m hm
    exact (Nat.le_div_iff_mul_le hrs).mpr (by omega)

/-- Witness for C2: with `mtu = 100`, overhead `20` and two 16-byte fields
(record size 32), the computed maximum is 2 records, 2·32+20 ≤ 100 and a
third record would exceed the MTU. -/
theorem compute_max_records_per_packet_largest_witness :
    compute_max_records_per_packet 100 20 [16, 16] * record_size [16, 16] + 20 ≤ 100 ∧
    100 < (compute_max_records_per_packet 100 20 [16, 16] + 1) * record_size [16, 16] + 20 ∧
    ∀ m : ℕ, m * record_size [16, 16] + 20 ≤ 100 →
      m ≤ compute_max_records_per_packet 100 20 [16, 16] :=
  compute_max_records_per_packet_largest 100 20 [16, 16] (by decide) (by decide)

/-- Claim C3: starting from a tracker within the 30-entry bound, appending a
record keeps it within the bound; below the bound the record is appended
with nothing evicted, and once a 31st record would appear the oldest entry
(head of the insertion order) is evicted first, FIFO style. -/
theorem trackerAppend_bound_fifo (t : List ExportSessionRecord)
    (r : ExportSessionRecord) (h : t.length ≤ TRACKER_MAX) :
    (trackerAppend t r).length ≤ TRACKER_MAX ∧
    (t.length < TRACKER_MAX → trackerAppend t r = t ++ [r]) ∧
    (t.length = TRACKER_MAX → trackerAppend t r = t.tail ++ [r]) := by
  have hmax : TRACKER_MAX = 30 := rfl
  have hlen : (t ++ [r]).length = t.length + 1 := by simp
  refine ⟨?_, ?_, ?_⟩
  · by_cases hlt : TRACKER_MAX < (t ++ [r]).length
    · simp only [trackerAppend, if_pos hlt, List.length_drop]
      omega
    · simp only [trackerAppend, if_neg hlt]
      omega
  · intro hl
    have hno : ¬ TRACKER_MAX < (t ++ [r]).length := by
      rw [hlen]
      omega
    simp only [trackerAppend, if_neg hno]
  · intro hl
    have hcond : TRACKER_MAX < (t ++ [r]).length := by
      rw [hlen]
      omega
    have hdrop : (t ++ [r]).length - TRACKER_MAX = 1 := by
      rw [hlen]
      omega
    simp only [trackerAppend, if_pos hcond, hdrop]
    rw [List.drop_append_of_le_length (by omega), List.drop_one]

/-- Witness for C3: a full 30-entry tracker evicts its oldest entry when the
31st record is appended, and the bound still holds. -/
theorem trackerAppend_bound_fifo_witness :
    (trackerAppend (List.replicate 30 sampleRecord) sampleRecord).length ≤ TRACKER_MAX ∧
    ((List.replicate 30 sampleRecord).length < TRACKER_MAX →
      trackerAppend (List.replicate 30 sampleRecord) sampleRecord
        = List.replicate 30 sampleRecord ++ [sampleRecord]) ∧
    ((List.replicate 30 sampleRecord).length = TRACKER_MAX →
      trackerAppend (List.replicate 30 sampleRecord) sampleRecord
        = (List.replicate 30 sampleRecord).tail ++ [sampleRecord]) :=
  trackerAppend_bound_fifo (List.replicate 30 sampleRecord) sampleRecord (by simp [TRACKER_MAX])

/-- Claim C4: passing `data_rate_pps = 0` to `set_rates` leaves the previous
data rate unchanged while the template rate updates to the given (nonzero)
value; symmetrically `template_rate_pps = 0` leaves the template rate
unchanged while the data rate updates; and both rates are settable
independently in one call. -/
theorem set_rates_zero_sentinel (g : Generator) (tr dr : ℚ)
    (htr : tr ≠ 0) (hdr : dr ≠ 0) :
    (set_rates g tr 0).data_rate_pps = g.data_rate_pps ∧
    (set_rates g tr 0).template_rate_pps = tr ∧
    (set_rates g 0 dr).template_rate_pps = g.template_rate_pps ∧
    (set_rates g 0 dr).data_rate_pps = dr ∧
    (set_rates g tr dr).template_rate_pps = tr ∧
    (set_rates g tr dr).data_rate_pps = dr := by
  simp [set_rates, htr, hdr]

/-- Witness for C4: updating the sample generator with rates 5 and 7,
and with each 0-sentinel combination, behaves as claimed. -/
theorem set_rates_zero_sentinel_witness :
    (set_rates sampleGenerator 5 0).data_rate_pps = sampleGenerator.data_rate_pps ∧
    (set_rates sampleGenerator 5 0).template_rate_pps = 5 ∧
    (set_rates sampleGenerator 0 7).template_rate_pps = sampleGenerator.template_rate_pps ∧
    (set_rates sampleGenerator 0 7).data_rate_pps = 7 ∧
    (set_rates sampleGenerator 5 7).template_rate_pps = 5 ∧
    (set_rates sampleGenerator 5 7).data_rate_pps = 7 :=
  set_rates_zero_sentinel sampleGenerator 5 7 (by norm_num) (by norm_num)

/-- If the attempts before index `j` all fail and attempt `j` succeeds
within the retry budget, the send loop returns the successful session of
attempt `j`. -/
lemma httpSendFrom_success (attempts : ℕ → AttemptOutcome) :
    ∀ (j i r : ℕ), j ≤ r →
      (∀ d, d < j → ∃ e, attempts (i + d) = AttemptOutcome.failure e) →
      ∀ code msg, attempts (i + j) = AttemptOutcome.success code msg →
      httpSendFrom attempts i r = ⟨"success", some code, some msg, none⟩ := by
  intro j
  induction j with
  | zero =>
    intro i r _ _ code msg hs
    rw [Nat.add_zero] at hs
    cases r with
    | zero => simp [httpSendFrom, hs]
    | succ r => simp [httpSendFrom, hs]
  | succ j ih =>
    intro i r hj hfail code msg hs
    obtain ⟨e, he⟩ := hfail 0 (Nat.succ_pos j)
    rw [Nat.add_zero] at he
    obtain ⟨r', rfl⟩ : ∃ w, r = w + 1 := ⟨r - 1, by omega⟩
    simp only [httpSendFrom, he]
    refine ih (i + 1) r' (by omega) ?_ code msg ?_
    · intro d hd
      obtain ⟨e2, he2⟩ := hfail (d + 1) (by omega)
      exact ⟨e2, by rw [show i + 1 + d = i + (d + 1) from by omega]; exact he2⟩
    · rw [show i + 1 + j = i + (j + 1) from by omega]
      exact hs

/-- If every attempt within the retry budget fails, the send loop marks the
session failed with the error of the last attempt. -/
lemma httpSendFrom_all_fail (attempts : ℕ → AttemptOutcome) (errFn : ℕ → String) :
    ∀ (r i : ℕ), (∀ d, d ≤ r → attempts (i + d) = AttemptOutcome.failure (errFn (i + d))) →
      httpSendFrom attempts i r = ⟨"failed", none, none, some (errFn (i + r))⟩ := by
  intro r
  induction r with
  | zero =>
    intro i h
    have h0 := h 0 le_rfl
    rw [Nat.add_zero] at h0 ⊢
    simp [httpSendFrom, h0]
  | succ r ih =>
    intro i h
    have h0 := h 0 (by omega)
    rw [Nat.add_zero] at h0
    simp only [httpSendFrom, h0]
    have hrec := ih (i + 1) (fun d hd => by
      have hdd := h (d + 1) (by omega)
      rwa [show i + (d + 1) = i + 1 + d from by omega] at hdd)
    rw [hrec, show i + 1 + r = i + (r + 1) from by omega]

/-- Claim C5: with `repeats_num = k` the HTTP transport makes up to `k`
retries after a failed attempt; if some attempt within the budget succeeds,
the session ends with status `success` and `http_status_code` from that
last (successful) attempt only; if all attempts fail, the session is marked
`status = failed` with the last error surfaced; and a send never touches
the domain's pacer accumulators (pacing is not aborted). -/
theorem http_send_retry_semantics (k : ℕ) (attempts : ℕ → AttemptOutcome)
    (st : DomainState) (name time : String) :
    (∀ j code msg, j ≤ k →
        (∀ d, d < j → ∃ e, attempts d = AttemptOutcome.failure e) →
        attempts j = AttemptOutcome.success code msg →
        httpSend k attempts = ⟨"success", some code, some msg, none⟩) ∧
    (∀ errFn : ℕ → String,
        (∀ d, d ≤ k → attempts d = AttemptOutcome.failure (errFn d)) →
        httpSend k attempts = ⟨"failed", none, none, some (errFn k)⟩) ∧
    (domainHttpSend st k attempts name time).template_acc = st.template_acc ∧
    (domainHttpSend st k attempts name time).data_acc = st.data_acc := by
  refine ⟨?_, ?_, rfl, rfl⟩
  · intro j code msg hj hfail hs
    exact httpSendFrom_success attempts j 0 k hj
      (fun d hd => by simpa using hfail d hd) code msg (by simpa using hs)
  · intro errFn hall
    have := httpSendFrom_all_fail attempts errFn k 0
      (fun d hd => by simpa using hall d hd)
    simpa using this

/-- Witness for C5: with `repeats_num = 2`, two failures followed by a
success end the session with status `success` and HTTP code 200 from the
third attempt only. -/
theorem http_send_retry_semantics_witness :
    httpSend 2 sampleAttempts = ⟨"success", some 200, some "OK", none⟩ :=
  (http_send_retry_semantics 2 sampleAttempts ⟨0, 0, []⟩ "f" "t").1 2 200 "OK"
    le_rfl
    (fun d hd => ⟨"connection refused", by simp [sampleAttempts, hd]⟩)
    (by simp [sampleAttempts])

/-- Helper: `checkFieldKind` can only fail with `UnsupportedFieldKind`. -/
lemma checkFieldKind_error_eq (v : ℕ) (f : FieldDef) (e : IpfixError)
    (h : checkFieldKind v f = Except.error e) : e = IpfixError.UnsupportedFieldKind := by
  simp only [checkFieldKind] at h
  split_ifs at h with h1 h2
  · exact (Except.error.inj h).symm
  · exact (Except.error.inj h).symm

/-- If some field of the list is incompatible, the whole field check fails
with `UnsupportedFieldKind`. -/
lemma checkFields_error_of_mem (v : ℕ) (fs : List FieldDef) (f : FieldDef)
    (hf : f ∈ fs)
    (hbad : checkFieldKind v f = Except.error IpfixError.UnsupportedFieldKind) :
    checkFields v fs = Except.error IpfixError.UnsupportedFieldKind := by
  induction fs with
  | nil => cases hf
  | cons g rest ih =>
    cases hck : checkFieldKind v g with
    | error e =>
      have he := checkFieldKind_error_eq v g e hck
      simp only [checkFields, hck, he]
    | ok u =>
      rcases List.mem_cons.mp hf with rfl | hmem
      · rw [hck] at hbad
        exact absurd hbad (by simp)
      · simp only [checkFields, hck]
        exact ih hmem

/-- Claim C6: under netflow version 9, creating a generator that contains a
field with `enterprise_number` set (or a variable-length `0xFFFF` field)
fails with `UnsupportedFieldKind`, and no generator is created (the result
is the error, never an extended generator list). -/
theorem v9_enterprise_creation_fails (gens : List GenDef) (g : GenDef) (f : FieldDef)
    (hf : f ∈ g.fields)
    (hbad : f.enterprise_number.isSome = true ∨ f.length = 0xFFFF) :
    createGenerator 9 gens g = Except.error IpfixError.UnsupportedFieldKind := by
  have hck : checkFieldKind 9 f = Except.error IpfixError.UnsupportedFieldKind := by
    rcases hbad with hb | hb
    · by_cases hlen : f.length = 0xFFFF
      · simp [checkFieldKind, hlen]
      · simp [checkFieldKind, hlen, hb]
    · simp [checkFieldKind, hb]
  have hall := checkFields_error_of_mem 9 g.fields f hf hck
  simp only [createGenerator, hall]

/-- Witness for C6: a v9 domain given a generator holding an enterprise
field rejects the creation with `UnsupportedFieldKind`. -/
theorem v9_enterprise_creation_fails_witness :
    createGenerator 9 [] ⟨"gen1", 256, [enterpriseField]⟩
      = Except.error IpfixError.UnsupportedFieldKind :=
  v9_enterprise_creation_fails [] ⟨"gen1", 256, [enterpriseField]⟩ enterpriseField
    (by simp) (Or.inl rfl)

/-- Claim C7: a missing config file or malformed JSON is surfaced
synchronously during the load call (caught `ValueError`s are reported, other
exceptions propagate) and no profile is installed — the previously installed
state is returned unchanged; the install steps run only after a successful
parse, and then they install exactly the parsed profile. -/
theorem load_profile_cfg_error_no_install (α : Type) (st : EmuState α) :
    (∀ e, ipfix_load_profile_from_cfg_file (Except.error (PyError.valueError e)) st
        = Except.ok (st, some ("Failed to create profile from config file, err: " ++ e))) ∧
    (∀ e, ipfix_load_profile_from_cfg_file (Except.error (PyError.fileNotFoundError e)) st
        = Except.error (PyError.fileNotFoundError e)) ∧
    (∀ p : α, ipfix_load_profile_from_cfg_file (Except.ok p) st
        = Except.ok (⟨some p⟩, none)) :=
  ⟨fun _ => rfl, fun _ => rfl, fun _ => rfl⟩

/-- Witness for C7: a malformed-JSON `ValueError` against a state holding
profile 5 leaves the state installed as it was, with the error message
surfaced. -/
theorem load_profile_cfg_error_no_install_witness :
    ipfix_load_profile_from_cfg_file (Except.error (PyError.valueError "bad json"))
        (EmuState.mk (some 5) : EmuState ℕ)
      = Except.ok (EmuState.mk (some 5),
          some ("Failed to create profile from config file, err: " ++ "bad json")) :=
  (load_profile_cfg_error_no_install ℕ (EmuState.mk (some 5))).1 "bad json"

/-- Claim C8: every public client-API method of the plugin validates its
arguments with `EMUValidator.verify` before issuing its RPC command: on a
validation error the exception propagates and no command is sent, and only
when validation passes is exactly the method's one command sent. -/
theorem api_validation_gates_rpc (resp ck gn tr r en : PyVal) :
    (∀ e, EMUValidator_verify (set_gen_rate_args ck gn tr r) = Except.error e →
        set_gen_rate resp ck gn tr r = (Except.error e, [])) ∧
    (EMUValidator_verify (set_gen_rate_args ck gn tr r) = Except.ok () →
        set_gen_rate resp ck gn tr r
          = (Except.ok resp, [⟨"ipfix_c_set_gen_state", [ck, gn, tr, r]⟩])) ∧
    (∀ e, EMUValidator_verify (enable_generator_args ck gn en) = Except.error e →
        enable_generator resp ck gn en = (Except.error e, [])) ∧
    (EMUValidator_verify (enable_generator_args ck gn en) = Except.ok () →
        enable_generator resp ck gn en
          = (Except.ok resp, [⟨"ipfix_c_set_gen_state", [ck, gn, en]⟩])) ∧
    (∀ e, EMUValidator_verify (enable_ipfix_args ck en) = Except.error e →
        enable_ipfix resp ck en = (Except.error e, [])) ∧
    (EMUValidator_verify (enable_ipfix_args ck en) = Except.ok () →
        enable_ipfix resp ck en = (Except.ok resp, [⟨"ipfix_c_set_state", [ck, en]⟩])) ∧
    (∀ e, EMUValidator_verify (get_gen_info_args ck) = Except.error e →
        get_gen_info resp ck = (Except.error e, [])) ∧
    (EMUValidator_verify (get_gen_info_args ck) = Except.ok () →
        get_gen_info resp ck = (Except.ok resp, [⟨"ipfix_c_get_gens_info", [ck]⟩])) ∧
    (∀ e, EMUValidator_verify (get_exporter_info_args ck) = Except.error e →
        get_exporter_info resp ck = (Except.error e, [])) ∧
    (EMUValidator_verify (get_exporter_info_args ck) = Except.ok () →
        get_exporter_info resp ck = (Except.ok resp, [⟨"ipfix_c_get_exp_info", [ck]⟩])) := by
  refine ⟨?_, ?_, ?_, ?_, ?_, ?_, ?_, ?_, ?_, ?_⟩ <;>
    intro h₁ <;>
    first
      | (intro h₂; simp [set_gen_rate, enable_generator, enable_ipfix, get_gen_info,
          get_exporter_info, h₂])
      | simp [set_gen_rate, enable_generator, enable_ipfix, get_gen_info,
          get_exporter_info, h₁]

/-- Witness for C8: calling `set_gen_rate` with a float where `gen_name`
should be a string raises the validation error naming `gen_name` and sends
no command. -/
theorem api_validation_gates_rpc_witness :
    set_gen_rate (PyVal.bool true) (PyVal.clientKey 0) (PyVal.float 3)
        (PyVal.float 1) (PyVal.float 1)
      = (Except.error (PyError.trexError "gen_name"), []) :=
  (api_validation_gates_rpc (PyVal.bool true) (PyVal.clientKey 0) (PyVal.float 3)
    (PyVal.float 1) (PyVal.float 1) PyVal.pyNone).1
    (PyError.trexError "gen_name") rfl

/-- Claim C9: the template-rate console command returns a one-element tuple
(trailing comma at src line 412) while the data-rate command returns the
bare result, so for every pair of underlying results the two return values
never have the same shape. -/
theorem template_rate_line_returns_tuple (r₁ r₂ : Bool) :
    isTuple (ipfix_set_template_rate_line r₁) = true ∧
    ipfix_set_template_rate_line r₁ = PyValue.tuple [PyValue.bool r₁] ∧
    ipfix_set_data_rate_line r₂ = PyValue.bool r₂ ∧
    ipfix_set_template_rate_line r₁ ≠ ipfix_set_data_rate_line r₂ := by
  refine ⟨rfl, rfl, rfl, ?_⟩
  simp [ipfix_set_template_rate_line, ipfix_set_data_rate_line]

/-- Witness for C9: with results `true` and `false`, the template-rate
command's tuple never equals the data-rate command's bare boolean. -/
theorem template_rate_line_returns_tuple_witness :
    isTuple (ipfix_set_template_rate_line true) = true ∧
    ipfix_set_template_rate_line true = PyValue.tuple [PyValue.bool true] ∧
    ipfix_set_data_rate_line false = PyValue.bool false ∧
    ipfix_set_template_rate_line true ≠ ipfix_set_data_rate_line false :=
  template_rate_line_returns_tuple true false

end IpfixSpec

namespace SimpleBench

/-- Every element produced by the ascending range is below `stop`. -/
lemma rangeAsc_mem_lt :
    ∀ (fuel : ℕ) (start stop step x : ℤ), x ∈ rangeAsc fuel start stop step → x < stop := by
  intro fuel
  induction fuel with
  | zero =>
    intro start stop step x hx
    simp [rangeAsc] at hx
  | succ fuel ih =>
    intro start stop step x hx
    simp only [rangeAsc] at hx
    by_cases h : start < stop
    · rw [if_pos h] at hx
      rcases List.mem_cons.mp hx with rfl | hx₂
      · exact h
      · exact ih _ _ _ _ hx₂
    · rw [if_neg h] at hx
      cases hx

/-- A nonempty ascending range starts at `start`. -/
lemma rangeAsc_head (fuel : ℕ) (start stop step : ℤ) (hfuel : 0 < fuel)
    (h : start < stop) :
    (rangeAsc fuel start stop step).head? = some start := by
  obtain ⟨f, rfl⟩ : ∃ w, fuel = w + 1 := ⟨fuel - 1, by omega⟩
  simp [rangeAsc, h]

/-- Claim C10: in `do_test` the ramp rates are exactly
`range(base_rate, target_rate, floor((target_rate - base_rate) / steps))`;
whenever `base_rate < target_rate` and the step is positive the sequence
starts at `base_rate` and never contains `target_rate`; and when
`0 < target_rate - base_rate < steps` the computed step is 0 and the range
construction raises the `ValueError`. -/
theorem do_test_ramp_rates (base_rate target_rate steps : ℤ)
    (hbt : base_rate < target_rate) (hs : 0 < steps) :
    rampStep base_rate target_rate steps
      = ⌊((target_rate - base_rate : ℤ) : ℚ) / ((steps : ℤ) : ℚ)⌋ ∧
    (steps ≤ target_rate - base_rate →
      ∃ l, do_test_rates base_rate target_rate steps = Except.ok l ∧
        l.head? = some base_rate ∧ target_rate ∉ l) ∧
    (target_rate - base_rate < steps →
      rampStep base_rate target_rate steps = 0 ∧
      do_test_rates base_rate target_rate steps
        = Except.error "ValueError: range() arg 3 must not be zero") := by
  have hsq : (0 : ℚ) < ((steps : ℤ) : ℚ) := by exact_mod_cast hs
  have hq0 : (0 : ℚ) ≤ ((target_rate - base_rate : ℤ) : ℚ) / ((steps : ℤ) : ℚ) :=
    div_nonneg (by exact_mod_cast (by omega : (0 : ℤ) ≤ target_rate - base_rate)) hsq.le
  have h1 : rampStep base_rate target_rate steps
      = ⌊((target_rate - base_rate : ℤ) : ℚ) / ((steps : ℤ) : ℚ)⌋ := by
    unfold rampStep pyInt
    rw [if_pos hq0]
  refine ⟨h1, ?_, ?_⟩
  · intro hl
    have hstep1 : 1 ≤ rampStep base_rate target_rate steps := by
      rw [h1, Int.le_floor]
      rw [le_div_iff₀ hsq]
      have hlq : ((steps : ℤ) : ℚ) ≤ ((target_rate - base_rate : ℤ) : ℚ) := by
        exact_mod_cast hl
      push_cast at hlq ⊢
      linarith
    refine ⟨rangeAsc (target_rate - base_rate).toNat base_rate target_rate
        (rampStep base_rate target_rate steps), ?_, ?_, ?_⟩
    · unfold do_test_rates pyRange
      rw [if_neg (by omega), if_pos (by omega)]
    · exact rangeAsc_head _ _ _ _ (by omega) hbt
    · intro hmem
      exact absurd (rangeAsc_mem_lt _ _ _ _ _ hmem) (lt_irrefl _)
  · intro hlt
    have hzero : rampStep base_rate target_rate steps = 0 := by
      rw [h1, Int.floor_eq_zero_iff]
      refine Set.mem_Ico.mpr ⟨hq0, ?_⟩
      rw [div_lt_one hsq]
      exact_mod_cast hlt
    refine ⟨hzero, ?_⟩
    unfold do_test_rates
    rw [hzero]
    unfold pyRange
    rw [if_pos rfl]

/-- Witness for C10: base 10 kpps, target 100 kpps, 10 steps — step 9, the
rates start at 10 and 100 itself is never tested. -/
theorem do_test_ramp_rates_witness :
    ∃ l, do_test_rates 10 100 10 = Except.ok l ∧
      l.head? = some (10 : ℤ) ∧ (100 : ℤ) ∉ l :=
  (do_test_ramp_rates 10 100 10 (by decide) (by decide)).2.1 (by decide)

end SimpleBench
